import Mathlib

/-!
# Schedulr (`src/app.py`) — shallow embedding and verification

This file embeds the two core components of the Schedulr Flask application
(`src/app.py`): the adaptive schedule generator (`generate_adaptive_schedule`,
lines 224–315) and the test auto-grading engine (`submit_test`, lines
1267–1337), and proves the specification claims about them.

Modelling conventions:
* SQLite rows become Lean structures; tables become lists of rows; SQL
  queries become `List.filter` / `List.find?` / `List.any` over those lists.
* Instants of time are seconds since 0000-03-01 00:00:00 (proleptic
  Gregorian, the calendar Python's `datetime` uses); `datetime.now()` is a
  parameter `now : Nat`.  Sub-second precision is not modelled.
* Python truthiness of `exam_date` (a string or `None`) is modelled
  explicitly: `None` and the empty string are falsy.
* `ℚ` stands in for Python floats (scores are small fractions `c/t*100`,
  exactly representable in both directions for the properties proved here).
-/

/-! ## Calendar arithmetic (model of Python `datetime` / `timedelta`)

Days-to-date conversions use the standard civil-calendar algorithm over a
400-year era; day 0 is 0000-03-01 of the proleptic Gregorian calendar.
-/

/-- Days from 0000-03-01 to civil date `(y, m, d)` (proleptic Gregorian). -/
def daysFromCivil (y m d : Nat) : Nat :=
  let y' := if m ≤ 2 then y - 1 else y
  let era := y' / 400
  let yoe := y' % 400
  let mp  := if 2 < m then m - 3 else m + 9
  let doy := (153 * mp + 2) / 5 + d - 1
  let doe := yoe * 365 + yoe / 4 - yoe / 100 + doy
  era * 146097 + doe

/-- Civil date `(y, m, d)` of day number `z` (days since 0000-03-01). -/
def civilFromDays (z : Nat) : Nat × Nat × Nat :=
  let era := z / 146097
  let doe := z % 146097
  let yoe := (doe - doe / 1460 + doe / 36524 - doe / 146096) / 365
  let y   := yoe + era * 400
  let doy := doe - (365 * yoe + yoe / 4 - yoe / 100)
  let mp  := (5 * doy + 2) / 153
  let d   := doy - (153 * mp + 2) / 5 + 1
  let m   := if mp < 10 then mp + 3 else mp - 9
  (if m ≤ 2 then y + 1 else y, m, d)

/-- Gregorian leap-year test (as in Python's `calendar`/`datetime`). -/
def isLeap (y : Nat) : Bool :=
  y % 4 == 0 && (y % 100 != 0 || y % 400 == 0)

/-- Days in month `m` of year `y` (validation used by the `datetime` constructor). -/
def daysInMonth (y m : Nat) : Nat :=
  if m == 2 then (if isLeap y then 29 else 28)
  else if m == 4 || m == 6 || m == 9 || m == 11 then 30
  else 31

/-- Seconds since 0000-03-01 00:00:00 of the instant `(y,m,d,h,mi,s)`. -/
def toSeconds (y m d h mi s : Nat) : Nat :=
  daysFromCivil y m d * 86400 + h * 3600 + mi * 60 + s

/-- Zero-padded two-digit decimal (model of `%m`, `%d`, `%H` in `strftime`). -/
def pad2 (n : Nat) : String :=
  if n < 10 then "0" ++ toString n else toString n

/-- Four-digit decimal year (model of `%Y` in `strftime` for the years a real
clock produces; `datetime.now()` is always ≥ 1000). -/
def pad4 (n : Nat) : String :=
  if n < 10 then "000" ++ toString n
  else if n < 100 then "00" ++ toString n
  else if n < 1000 then "0" ++ toString n
  else toString n

/-- The `%Y-%m-%d` date portion of instant `t` (seconds since day 0). -/
def dateString (t : Nat) : String :=
  let c := civilFromDays (t / 86400)
  pad4 c.1 ++ "-" ++ pad2 c.2.1 ++ "-" ++ pad2 c.2.2

/-- Model of `dt.strftime('%Y-%m-%dT09:00')`: the date of `t` with the time
portion fixed at 09:00. -/
def strftimeAt0900 (t : Nat) : String :=
  dateString t ++ "T09:00"

/-- Model of `dt.strftime('%Y-%m-%dT%H:00')`: the date and hour of `t` with
minutes zeroed (time-of-day rounded down to the hour). -/
def strftimeHourFloor (t : Nat) : String :=
  dateString t ++ "T" ++ pad2 (t % 86400 / 3600) ++ ":00"

/-! ## Model of `datetime.fromisoformat`

`generate_adaptive_schedule` parses `exam_date.replace('T', ' ')` with
`datetime.fromisoformat` and falls back to a default on `ValueError` /
`TypeError` (src/app.py:270–281).  The model below follows the CPython
(pre-3.11) grammar `YYYY-MM-DD[<sep>HH[:MM[:SS[.fff[fff]]]]]`, with the
separator character (position 10) ignored, fractional seconds accepted but
truncated (sub-second precision is not modelled), and strict decimal digits.
A timezone offset (`+`/`-` in the time part) yields an aware datetime in
Python, whose subtraction from the naive `now` raises `TypeError` — caught
by the same fallback — so the model folds it into parse failure.  Range
validation (month 1–12, day within month, hour ≤ 23, minute/second ≤ 59)
mirrors the `datetime` constructor. -/

/-- Decimal value of an ASCII digit, or `none`. -/
def digitVal (c : Char) : Option Nat :=
  if c.isDigit then some (c.toNat - 48) else none

/-- Parse exactly two ASCII digits from the front of a character list. -/
def parse2 : List Char → Option (Nat × List Char)
  | c1 :: c2 :: rest =>
    match digitVal c1, digitVal c2 with
    | some a, some b => some (10 * a + b, rest)
    | _, _ => none
  | _ => none

/-- Parse a strict `YYYY-MM-DD` list of exactly 10 characters. -/
def parseDatePart : List Char → Option (Nat × Nat × Nat)
  | [y1, y2, y3, y4, s1, m1, m2, s2, d1, d2] =>
    match digitVal y1, digitVal y2, digitVal y3, digitVal y4 with
    | some a, some b, some c, some d =>
      if s1 = '-' ∧ s2 = '-' then
        match parse2 [m1, m2], parse2 [d1, d2] with
        | some (mo, _), some (da, _) =>
          some (1000 * a + 100 * b + 10 * c + d, mo, da)
        | _, _ => none
      else none
    | _, _, _, _ => none
  | _ => none

/-- Fractional-seconds suffix check: exactly 3 or 6 digits (value dropped). -/
def fracOK (cs : List Char) : Bool :=
  (cs.length == 3 || cs.length == 6) && cs.all Char.isDigit

/-- Parse the time part `HH[:MM[:SS[.fff[fff]]]]` into `(h, mi, s)`. -/
def parseTimePart (cs : List Char) : Option (Nat × Nat × Nat) :=
  match parse2 cs with
  | none => none
  | some (h, r1) =>
    match r1 with
    | [] => some (h, 0, 0)
    | ':' :: r2 =>
      match parse2 r2 with
      | none => none
      | some (mi, r3) =>
        match r3 with
        | [] => some (h, mi, 0)
        | ':' :: r4 =>
          match parse2 r4 with
          | none => none
          | some (s, r5) =>
            match r5 with
            | [] => some (h, mi, s)
            | '.' :: fr => if fracOK fr then some (h, mi, s) else none
            | _ => none
        | _ => none
    | _ => none

/-- Model of `datetime.fromisoformat` composed with the naive-datetime
subtraction that follows it; returns seconds since day 0, or `none` where the
source's `except (ValueError, TypeError)` fallback fires. -/
def fromisoformat (str : String) : Option Nat :=
  let cs := str.data
  match parseDatePart (cs.take 10) with
  | none => none
  | some (y, m, d) =>
    if 1 ≤ y ∧ y ≤ 9999 ∧ 1 ≤ m ∧ m ≤ 12 ∧ 1 ≤ d ∧ d ≤ daysInMonth y m then
      match cs.drop 11 with
      | [] => some (toSeconds y m d 0 0 0)
      | tcs =>
        if tcs.contains '-' || tcs.contains '+' then none
        else
          match parseTimePart tcs with
          | none => none
          | some (h, mi, s) =>
            if h ≤ 23 ∧ mi ≤ 59 ∧ s ≤ 59 then
              some (toSeconds y m d h mi s)
            else none
    else none

/-! ## Python string methods

The source uses `str.strip()`, `str.lower()`, `str.replace('T', ' ')` and the
slice `[:10]`.  They are modelled on the character list of the string (Python
strings index by code point); `lower()` is modelled on its ASCII portion. -/

/-- The whitespace characters Python's default `str.strip()` removes
(ASCII portion). -/
def isPyWhitespace (c : Char) : Bool :=
  c == ' ' || c == '\t' || c == '\n' || c == '\r' || c == '\x0b' || c == '\x0c'

/-- Model of Python `str.strip()`: drop leading and trailing whitespace. -/
def pyStrip (s : String) : String :=
  ⟨(((s.data.dropWhile isPyWhitespace).reverse.dropWhile isPyWhitespace).reverse)⟩

/-- Model of Python `str.lower()` (ASCII case mapping). -/
def pyLower (s : String) : String :=
  ⟨s.data.map Char.toLower⟩

/-- Model of Python `s.replace('T', ' ')`: a one-character pattern makes the
substring replace character-wise. -/
def pyReplaceTSpace (s : String) : String :=
  ⟨s.data.map (fun c => if c = 'T' then ' ' else c)⟩

/-- Model of the Python slice `s[:n]` (first `n` code points). -/
def pyTake (s : String) (n : Nat) : String :=
  ⟨s.data.take n⟩

/-! ## Data model (rows of the SQLite tables used by the core) -/

/-- Row of `StudyUnits` (src/app.py:95–103). -/
structure StudyUnit where
  id : Nat
  mentor_id : Nat
  subject : String
  unit_name : String
  topic_name : String
  deriving Repr, DecidableEq

/-- Row of `Exams` (src/app.py:158–169); `unit_id` is UNIQUE. -/
structure Exam where
  unit_id : Nat
  mentor_id : Nat
  subject : String
  exam_date : String
  deriving Repr, DecidableEq

/-- Row of `Tests` (src/app.py:106–115). -/
structure TestRow where
  id : Nat
  unit_id : Nat
  mentor_id : Nat
  test_title : String
  deriving Repr, DecidableEq

/-- Row of `Questions` (src/app.py:118–127); `qtype` is `'MCQ'` or
`'ShortAnswer'`, `correct_answer` is nullable. -/
structure Question where
  id : Nat
  test_id : Nat
  question_text : String
  qtype : String
  correct_answer : Option String
  deriving Repr, DecidableEq

/-- Row of `Options` (src/app.py:130–138). -/
structure OptionRow where
  id : Nat
  question_id : Nat
  option_text : String
  is_correct : Bool
  deriving Repr, DecidableEq

/-- Row of `StudentProgress` (src/app.py:142–155); `(student_id, unit_id)` is
UNIQUE; `test_score` and `difficulty_level` are nullable. -/
structure ProgressRow where
  student_id : Nat
  unit_id : Nat
  completed : Bool
  test_taken : Bool
  test_score : Option ℚ
  difficulty_level : Option String
  deriving Repr, DecidableEq

/-- The database snapshot the two core functions read. -/
structure DB where
  units : List StudyUnit
  exams : List Exam
  tests : List TestRow
  questions : List Question
  options : List OptionRow
  progress : List ProgressRow
  deriving Repr

/-! ## Schedule generator (`generate_adaptive_schedule`, src/app.py:224–315) -/

/-- Python truthiness of the looked-up `exam_date` (src/app.py:270, 288, 299):
`None` and the empty string are falsy. -/
def examDateTruthy : Option String → Bool
  | none => false
  | some s => !s.isEmpty

/-- `prog.get('completed', 0)` on the per-unit progress dict (src/app.py:263). -/
def progCompleted : Option ProgressRow → Bool
  | none => false
  | some p => p.completed

/-- `prog.get('test_taken', 0)` (src/app.py:264). -/
def progTestTaken : Option ProgressRow → Bool
  | none => false
  | some p => p.test_taken

/-- `prog.get('test_score')` (src/app.py:265). -/
def progScore : Option ProgressRow → Option ℚ
  | none => none
  | some p => p.test_score

/-- Round half to even (the rounding `f'{score:.0f}'` performs). -/
def roundHalfEven (q : ℚ) : ℤ :=
  let n := ⌊q⌋
  let r := q - (n : ℚ)
  if (1 : ℚ) / 2 < r then n + 1
  else if r < (1 : ℚ) / 2 then n
  else if n % 2 = 0 then n else n + 1

/-- Model of `f'{score:.0f}'` (src/app.py:293). -/
def formatScore (q : ℚ) : String :=
  toString (roundHalfEven q)

/-- Suggested study time (src/app.py:269–283): the source wraps the whole
branch in `try`, but only the `fromisoformat` call (and the aware-naive
subtraction, folded into `fromisoformat` here) can raise, so the `except`
is modelled as the `none` branch of the parse. -/
def computeSuggestedTime (now : Nat) (exam_date : Option String) : String :=
  if examDateTruthy exam_date then
    match fromisoformat (pyReplaceTSpace (exam_date.getD "")) with
    | some ed =>
      let days_until : ℤ := Int.fdiv ((ed : ℤ) - (now : ℤ)) 86400
      if days_until ≤ 3 then strftimeHourFloor (now + 2 * 3600)
      else if days_until ≤ 7 then strftimeAt0900 (now + 86400)
      else strftimeAt0900 (now + 2 * 86400)
    | none => strftimeAt0900 (now + 86400)
  else strftimeAt0900 (now + 86400)

/-- A derived suggestion (the dict appended at src/app.py:302–311; the unit
payload is carried by `unit_id`). -/
structure Suggestion where
  unit_id : Nat
  suggested_study_time : String
  reason : String
  exam_date : Option String
  priority : Nat
  completed : Bool
  test_taken : Bool
  deriving Repr, DecidableEq

/-- Loop body of `generate_adaptive_schedule` (src/app.py:260–311): the
suggestion for one unit from its progress row (if any) and exam date (if
any). -/
def buildSuggestion (now : Nat) (u : StudyUnit) (prog : Option ProgressRow)
    (exam_date : Option String) : Suggestion :=
  let completed := progCompleted prog
  let test_taken := progTestTaken prog
  let score := progScore prog
  let suggested_time := computeSuggestedTime now exam_date
  let rp : String × Nat :=
    if !completed then
      ("Not started", if examDateTruthy exam_date then 10 else 5)
    else if !test_taken then
      ("Completed, test pending", if examDateTruthy exam_date then 9 else 4)
    else
      match score with
      | some sc =>
        if sc < 70 then
          ("Struggled (score: " ++ formatScore sc ++ "%)",
           if examDateTruthy exam_date then 8 else 3)
        else ("Completed", 1)
      | none => ("Completed", 1)
  let reason :=
    if examDateTruthy exam_date then
      rp.1 ++ " | Exam: " ++ pyTake (exam_date.getD "") 10
    else rp.1
  { unit_id := u.id
    suggested_study_time := suggested_time
    reason := reason
    exam_date := exam_date
    priority := rp.2
    completed := completed
    test_taken := test_taken }

/-- Sort key comparison of `suggestions.sort(key=lambda x: (-x['priority'],
x['suggested_study_time']))` (src/app.py:314). -/
def suggLE (a b : Suggestion) : Bool :=
  decide (b.priority < a.priority) ||
    (a.priority == b.priority && decide (a.suggested_study_time ≤ b.suggested_study_time))

/-- `generate_adaptive_schedule(student_id, mentor_id)` (src/app.py:224–315):
builds one suggestion per unit of the mentor and sorts by descending priority
then ascending suggested time.  The SQL dict lookups become `List.find?`
(rows are unique by the schema's keys). -/
def generate_adaptive_schedule (db : DB) (student_id mentor_id : Nat)
    (now : Nat) : List Suggestion :=
  let units := db.units.filter (fun u => u.mentor_id == mentor_id)
  let sugg := units.map (fun u =>
    let prog := db.progress.find?
      (fun p => p.student_id == student_id && p.unit_id == u.id)
    let exam_date := (db.exams.find?
      (fun e => e.mentor_id == mentor_id && e.unit_id == u.id)).map (·.exam_date)
    buildSuggestion now u prog exam_date)
  sugg.mergeSort suggLE

/-! ## Grading engine (`submit_test`, src/app.py:1267–1337) -/

/-- `request.form.get(f'q{qid}', '')` (src/app.py:1298): the submitted answer
for question `qid`, a missing field defaulting to the empty string. -/
def answerFor (form : List (String × String)) (qid : Nat) : String :=
  match form.find? (fun kv => kv.1 == "q" ++ toString qid) with
  | some kv => kv.2
  | none => ""

/-- `SELECT id FROM Options WHERE question_id = ? AND is_correct = 1 ORDER BY
id LIMIT 1` (src/app.py:1300): the lowest id among options marked correct. -/
def minCorrectOptId (options : List OptionRow) (qid : Nat) : Option Nat :=
  ((options.filter (fun o => o.question_id == qid && o.is_correct)).map
    (·.id)).min?

/-- Grading of one question (src/app.py:1296–1308).  For MCQ the source
guards with the truthiness of the option id (`if correct_opt_id and ...`),
so id 0 is falsy; for everything else (ShortAnswer by the schema CHECK) it
compares the normalized strings. -/
def gradeQuestion (options : List OptionRow) (form : List (String × String))
    (q : Question) : Bool :=
  let ans := pyStrip (answerFor form q.id)
  if q.qtype == "MCQ" then
    match minCorrectOptId options q.id with
    | none => false
    | some cid => cid != 0 && ans == toString cid
  else
    let expected := pyLower (pyStrip (q.correct_answer.getD ""))
    pyLower ans == expected

/-- `SELECT * FROM Questions WHERE test_id = ? ORDER BY id` (src/app.py:1293);
the `ORDER BY` is irrelevant to counting correct answers, so the filtered
list keeps table order. -/
def questionsOf (db : DB) (test_id : Nat) : List Question :=
  db.questions.filter (fun q => q.test_id == test_id)

/-- `score = (correct / total * 100) if total > 0 else 0` (src/app.py:1311). -/
def scoreOf (correct total : Nat) : ℚ :=
  if 0 < total then (correct : ℚ) / (total : ℚ) * 100 else 0

/-- Difficulty classification from the score (src/app.py:1314–1320). -/
def difficultyLevel (score : ℚ) : String :=
  if score < 50 then "hard"
  else if score < 70 then "medium"
  else "easy"

/-- Row predicate of `WHERE student_id = ? AND unit_id = ?`. -/
def progressKey (sid uid : Nat) (r : ProgressRow) : Bool :=
  r.student_id == sid && r.unit_id == uid

/-- The read-then-insert-or-update of src/app.py:1322–1332: if a row for
`(sid, uid)` exists, `UPDATE ... SET test_taken = 1, test_score, difficulty_level`
(all matching rows, as SQL does); otherwise `INSERT` a new row with
`completed = 1, test_taken = 1`. -/
def upsertProgress (rows : List ProgressRow) (sid uid : Nat) (score : ℚ)
    (dl : String) : List ProgressRow :=
  if rows.any (progressKey sid uid) then
    rows.map (fun r =>
      if progressKey sid uid r then
        { r with test_taken := true, test_score := some score,
                 difficulty_level := some dl }
      else r)
  else
    rows ++ [{ student_id := sid, unit_id := uid, completed := true,
               test_taken := true, test_score := some score,
               difficulty_level := some dl }]

/-- The ownership join of src/app.py:1281–1287: `SELECT t.*, u.id as unit_id
FROM Tests t JOIN StudyUnits u ON t.unit_id = u.id WHERE t.id = ? AND
u.mentor_id = ?`, reduced to the unit id it yields. -/
def findOwnedTestUnit (db : DB) (test_id mentor_id : Nat) : Option Nat :=
  (db.tests.find? (fun t =>
    t.id == test_id &&
      db.units.any (fun u => u.id == t.unit_id && u.mentor_id == mentor_id))).map
    (·.unit_id)

/-- `submit_test(test_id)` (src/app.py:1267–1337) for a logged-in student with
mentor `mentor_id`: on the ownership check failing it flashes "Test not found"
and redirects (modelled as `Except.error`); otherwise grades, classifies and
upserts, returning the score, the difficulty level and the updated
`StudentProgress` table. -/
def submit_test (db : DB) (student_id mentor_id test_id : Nat)
    (form : List (String × String)) :
    Except String (ℚ × String × List ProgressRow) :=
  match findOwnedTestUnit db test_id mentor_id with
  | none => .error "Test not found"
  | some unit_id =>
    let qs := questionsOf db test_id
    let correct := qs.countP (gradeQuestion db.options form)
    let score := scoreOf correct qs.length
    let dl := difficultyLevel score
    .ok (score, dl, upsertProgress db.progress student_id unit_id score dl)

/-- The `StudentProgress` table after a `submit_test` request: unchanged when
the request errors (the source writes nothing before the ownership check
fails), else the upserted table. -/
def progressAfterSubmit (db : DB) (student_id mentor_id test_id : Nat)
    (form : List (String × String)) : List ProgressRow :=
  match submit_test db student_id mentor_id test_id form with
  | .error _ => db.progress
  | .ok r => r.2.2

/-! ## Concrete instances used to instantiate the theorems -/

/-- A sample instant: 2025-10-12 14:35:20. -/
def wNow : Nat := toSeconds 2025 10 12 14 35 20

/-- A sample database: mentor 7 with two units, one exam two days out, one
test (an MCQ and a ShortAnswer question), and one progress row of student 9. -/
def wDB : DB :=
  { units := [⟨1, 7, "Math", "Algebra", "Linear equations"⟩,
              ⟨2, 7, "Math", "Calculus", "Derivatives"⟩]
    exams := [⟨1, 7, "Math", "2025-10-14T10:00"⟩]
    tests := [⟨40, 1, 7, "Algebra test"⟩]
    questions := [⟨100, 40, "2+2?", "MCQ", none⟩,
                  ⟨101, 40, "Capital of France?", "ShortAnswer", some " Paris "⟩]
    options := [⟨200, 100, "3", false⟩, ⟨201, 100, "4", true⟩]
    progress := [⟨9, 2, true, false, none, none⟩] }

/-- A sample database whose only test has no questions. -/
def wDBempty : DB :=
  { units := [⟨1, 7, "Math", "Algebra", "Linear equations"⟩]
    exams := []
    tests := [⟨41, 1, 7, "Empty test"⟩]
    questions := []
    options := []
    progress := [] }

/-! ## Helper lemmas -/

theorem pyLower_eq_empty_iff (s : String) : pyLower s = "" ↔ s = "" := by
  constructor
  · intro h
    have hd := congrArg String.data h
    simp only [pyLower] at hd
    rw [String.ext_iff]
    simpa using hd
  · intro h; rw [h]; rfl

theorem examDateTruthy_eq_isSome {ed : Option String} (h : ed ≠ some "") :
    examDateTruthy ed = ed.isSome := by
  cases ed with
  | none => rfl
  | some s =>
    have hs : s ≠ "" := fun h0 => h (by rw [h0])
    have he : s.isEmpty = false := by
      cases h0 : s.isEmpty
      · rfl
      · exact absurd ((String.isEmpty_iff s).mp h0) hs
    simp [examDateTruthy, he]

theorem reason_suffix_eq (base : String) (ed : Option String) (h : ed ≠ some "") :
    (if examDateTruthy ed then base ++ " | Exam: " ++ pyTake (ed.getD "") 10 else base) =
      base ++ (if ed.isSome then " | Exam: " ++ pyTake (ed.getD "") 10 else "") := by
  cases ed with
  | none => simp [examDateTruthy, String.append_empty]
  | some s =>
    have hs : s ≠ "" := fun h0 => h (by rw [h0])
    simp [examDateTruthy, String.isEmpty_iff, hs, String.append_assoc]

theorem buildSuggestion_unit_id (now : Nat) (u : StudyUnit)
    (prog : Option ProgressRow) (ed : Option String) :
    (buildSuggestion now u prog ed).unit_id = u.id := rfl

/-! ## Claim theorems -/

/-- C2: the stored difficulty level is a fixed-threshold function of the
computed score — `< 50 → "hard"`, `50 ≤ · < 70 → "medium"`, `≥ 70 → "easy"` —
with exactly 50 classified "medium" and exactly 70 classified "easy", and
every successful grading stores the classification of the score it just
computed. -/
theorem C2_difficulty_classification :
    (∀ q : ℚ,
        (q < 50 → difficultyLevel q = "hard") ∧
        (50 ≤ q → q < 70 → difficultyLevel q = "medium") ∧
        (70 ≤ q → difficultyLevel q = "easy")) ∧
    difficultyLevel 50 = "medium" ∧ difficultyLevel 70 = "easy" ∧
    (∀ db sid mid tid form s d p,
        submit_test db sid mid tid form = Except.ok (s, d, p) →
        d = difficultyLevel s) := by
  refine ⟨fun q => ⟨?_, ?_, ?_⟩, ?_, ?_, ?_⟩
  · intro h; simp [difficultyLevel, h]
  · intro h1 h2
    rw [difficultyLevel, if_neg (by linarith), if_pos h2]
  · intro h
    rw [difficultyLevel, if_neg (by linarith), if_neg (by linarith)]
  · norm_num [difficultyLevel]
  · norm_num [difficultyLevel]
  · intro db sid mid tid form s d p h
    rw [submit_test] at h
    cases hf : findOwnedTestUnit db tid mid with
    | none => rw [hf] at h; cases h
    | some uid =>
      rw [hf] at h
      simp only [Except.ok.injEq, Prod.mk.injEq] at h
      obtain ⟨hs, hd, -⟩ := h
      rw [← hd, ← hs]

/-- C2 witness: concrete classifications obtained from the theorem. -/
theorem C2_difficulty_classification_witness :
    (30 : ℚ) < 50 ∧ difficultyLevel 30 = "hard" ∧
    difficultyLevel 50 = "medium" ∧ difficultyLevel 70 = "easy" :=
  ⟨by norm_num, (C2_difficulty_classification.1 30).1 (by norm_num),
   C2_difficulty_classification.2.1, C2_difficulty_classification.2.2.1⟩

/-- C5: every graded submission scores `correct / total * 100` as a rational,
and a test with zero questions scores 0 instead of dividing by zero. -/
theorem C5_score_formula :
    ∀ db sid mid tid form s d p,
      submit_test db sid mid tid form = Except.ok (s, d, p) →
      (0 < (questionsOf db tid).length →
        s = ((questionsOf db tid).countP (gradeQuestion db.options form) : ℚ) /
            ((questionsOf db tid).length : ℚ) * 100) ∧
      ((questionsOf db tid).length = 0 → s = 0) := by
  intro db sid mid tid form s d p h
  rw [submit_test] at h
  cases hf : findOwnedTestUnit db tid mid with
  | none => rw [hf] at h; cases h
  | some uid =>
    rw [hf] at h
    simp only [Except.ok.injEq, Prod.mk.injEq] at h
    obtain ⟨hs, -, -⟩ := h
    constructor
    · intro hpos
      rw [← hs, scoreOf, if_pos hpos]
    · intro hzero
      rw [← hs, scoreOf, if_neg (by omega)]

/-- C5 witness: grading the question-less test of `wDBempty` succeeds with
score 0. -/
theorem C5_score_formula_witness :
    submit_test wDBempty 9 7 41 [] =
      Except.ok (0, "hard", [⟨9, 1, true, true, some 0, some "hard"⟩]) ∧
    ((0 < (questionsOf wDBempty 41).length →
        (0 : ℚ) = ((questionsOf wDBempty 41).countP (gradeQuestion wDBempty.options []) : ℚ) /
            ((questionsOf wDBempty 41).length : ℚ) * 100) ∧
      ((questionsOf wDBempty 41).length = 0 → (0 : ℚ) = 0)) :=
  ⟨by rfl, C5_score_formula wDBempty 9 7 41 [] 0 "hard"
    [⟨9, 1, true, true, some 0, some "hard"⟩] (by rfl)⟩

/-- C9: for a ShortAnswer question whose stored `correct_answer` is NULL or
whitespace-only, a submission is counted correct exactly when the submitted
answer is empty or whitespace-only — in particular a missing form field
(defaulting to the empty string) counts as correct. -/
theorem C9_blank_short_answer :
    ∀ options form (q : Question),
      q.qtype = "ShortAnswer" →
      (q.correct_answer = none ∨ ∃ ca, q.correct_answer = some ca ∧ pyStrip ca = "") →
      (gradeQuestion options form q = true ↔ pyStrip (answerFor form q.id) = "") ∧
      (form.find? (fun kv => kv.1 == "q" ++ toString q.id) = none →
        gradeQuestion options form q = true) := by
  intro options form q htyp hca
  have hne : (q.qtype == "MCQ") = false := by
    rw [htyp]; rfl
  have hexp : pyLower (pyStrip (q.correct_answer.getD "")) = "" := by
    rcases hca with h0 | ⟨ca, hc, ht⟩
    · rw [h0]; rfl
    · rw [hc]
      show pyLower (pyStrip ca) = ""
      rw [ht]; rfl
  have hgrade : gradeQuestion options form q =
      (pyLower (pyStrip (answerFor form q.id)) == "") := by
    rw [gradeQuestion, hne, if_neg (by simp), hexp]
  constructor
  · rw [hgrade, beq_iff_eq, pyLower_eq_empty_iff]
  · intro hfind
    rw [hgrade]
    have : answerFor form q.id = "" := by rw [answerFor, hfind]
    rw [this]; rfl

/-- C9 witness: question 101 with whitespace-only answer key, graded against
an empty form. -/
theorem C9_blank_short_answer_witness :
    (⟨101, 40, "q?", "ShortAnswer", some "  "⟩ : Question).qtype = "ShortAnswer" ∧
    ((⟨101, 40, "q?", "ShortAnswer", some "  "⟩ : Question).correct_answer = none ∨
      ∃ ca, (⟨101, 40, "q?", "ShortAnswer", some "  "⟩ : Question).correct_answer = some ca ∧
        pyStrip ca = "") ∧
    ((gradeQuestion [] [] ⟨101, 40, "q?", "ShortAnswer", some "  "⟩ = true ↔
        pyStrip (answerFor [] 101) = "") ∧
      ((List.find? (fun kv => kv.1 == "q" ++ toString 101)
          ([] : List (String × String))) = none →
        gradeQuestion [] [] ⟨101, 40, "q?", "ShortAnswer", some "  "⟩ = true)) :=
  ⟨rfl, Or.inr ⟨"  ", rfl, rfl⟩,
    C9_blank_short_answer [] [] ⟨101, 40, "q?", "ShortAnswer", some "  "⟩ rfl
      (Or.inr ⟨"  ", rfl, rfl⟩)⟩

/-- C4: an MCQ is counted correct iff the submitted answer equals the decimal
identifier of the lowest-id option marked correct (and never when no option is
marked correct); a ShortAnswer is counted correct iff the trimmed, lower-cased
submission equals the stored answer normalized the same way. -/
theorem C4_question_grading :
    ∀ options form (q : Question),
      (q.qtype = "MCQ" →
        ((∀ o ∈ options, o.question_id = q.id → o.is_correct = false) →
            gradeQuestion options form q = false) ∧
        (∀ cid, minCorrectOptId options q.id = some cid → 0 < cid →
            (gradeQuestion options form q = true ↔
              pyStrip (answerFor form q.id) = toString cid))) ∧
      (q.qtype = "ShortAnswer" →
        ∀ ca, q.correct_answer = some ca →
          (gradeQuestion options form q = true ↔
            pyLower (pyStrip (answerFor form q.id)) = pyLower (pyStrip ca))) := by
  intro options form q
  constructor
  · intro htyp
    have hb : (q.qtype == "MCQ") = true := by rw [htyp]; rfl
    constructor
    · intro hnone
      have hfil : options.filter (fun o => o.question_id == q.id && o.is_correct) = [] := by
        rw [List.filter_eq_nil_iff]
        intro o ho
        simp only [Bool.and_eq_true, beq_iff_eq, not_and]
        intro hq
        rw [hnone o ho hq]
        simp
      rw [gradeQuestion, hb, if_pos rfl, minCorrectOptId, hfil]
      rfl
    · intro cid hmin hpos
      rw [gradeQuestion, hb, if_pos rfl, minCorrectOptId] at *
      rw [hmin]
      have hne : (cid != 0) = true := by
        rw [bne_iff_ne]; omega
      show (cid != 0 && pyStrip (answerFor form q.id) == toString cid) = true ↔ _
      rw [hne, Bool.true_and, beq_iff_eq]
  · intro htyp ca hca
    have hb : (q.qtype == "MCQ") = false := by rw [htyp]; rfl
    rw [gradeQuestion, hb, if_neg (by simp), hca]
    show ((pyLower (pyStrip (answerFor form q.id)) == pyLower (pyStrip ca)) = true ↔ _)
    rw [beq_iff_eq]

/-- C4 witness: the MCQ of `wDB` (correct option 201) graded against the
matching submission, plus its ShortAnswer graded against "  PARIS". -/
theorem C4_question_grading_witness :
    (⟨100, 40, "2+2?", "MCQ", none⟩ : Question).qtype = "MCQ" ∧
    minCorrectOptId wDB.options 100 = some 201 ∧ 0 < 201 ∧
    (gradeQuestion wDB.options [("q100", " 201 ")] ⟨100, 40, "2+2?", "MCQ", none⟩ = true ↔
      pyStrip (answerFor [("q100", " 201 ")] 100) = toString 201) :=
  ⟨rfl, rfl, by omega,
    ((C4_question_grading wDB.options [("q100", " 201 ")]
      ⟨100, 40, "2+2?", "MCQ", none⟩).1 rfl).2 201 rfl (by omega)⟩

/-- C10: a progress row with `completed` and `test_taken` set but a NULL
`test_score` falls through to the "Completed" / priority-1 rule: a missing
score is never treated as a low score. -/
theorem C10_null_score_not_struggled :
    ∀ now u (p : ProgressRow) exam_date, exam_date ≠ some "" →
      p.completed = true → p.test_taken = true → p.test_score = none →
      (buildSuggestion now u (some p) exam_date).priority = 1 ∧
      (buildSuggestion now u (some p) exam_date).reason =
        "Completed" ++
          (if exam_date.isSome then " | Exam: " ++ pyTake (exam_date.getD "") 10 else "") := by
  intro now u p ed hne hc ht hs
  have hpc : progCompleted (some p) = true := by rw [progCompleted, hc]
  have hpt : progTestTaken (some p) = true := by rw [progTestTaken, ht]
  have hps : progScore (some p) = none := by rw [progScore, hs]
  constructor
  · show (buildSuggestion now u (some p) ed).priority = 1
    rw [buildSuggestion]
    simp only [hpc, hpt, hps, Bool.not_true, Bool.false_eq_true, if_false]
  · show (buildSuggestion now u (some p) ed).reason = _
    rw [buildSuggestion]
    simp only [hpc, hpt, hps, Bool.not_true, Bool.false_eq_true, if_false]
    exact reason_suffix_eq "Completed" ed hne

/-- C10 witness: completed, test taken, NULL score, with an exam on
2025-10-14. -/
theorem C10_null_score_not_struggled_witness :
    (some "2025-10-14T10:00" : Option String) ≠ some "" ∧
    (⟨9, 1, true, true, none, none⟩ : ProgressRow).completed = true ∧
    (⟨9, 1, true, true, none, none⟩ : ProgressRow).test_taken = true ∧
    (⟨9, 1, true, true, none, none⟩ : ProgressRow).test_score = none ∧
    ((buildSuggestion wNow ⟨1, 7, "Math", "Algebra", "Linear equations"⟩
        (some ⟨9, 1, true, true, none, none⟩) (some "2025-10-14T10:00")).priority = 1 ∧
      (buildSuggestion wNow ⟨1, 7, "Math", "Algebra", "Linear equations"⟩
        (some ⟨9, 1, true, true, none, none⟩) (some "2025-10-14T10:00")).reason =
        "Completed" ++
          (if (some "2025-10-14T10:00" : Option String).isSome then
            " | Exam: " ++ pyTake ((some "2025-10-14T10:00" : Option String).getD "") 10
          else "")) :=
  ⟨by simp, rfl, rfl, rfl,
    C10_null_score_not_struggled wNow ⟨1, 7, "Math", "Algebra", "Linear equations"⟩
      ⟨9, 1, true, true, none, none⟩ (some "2025-10-14T10:00") (by simp) rfl rfl rfl⟩

/-- C1: the priority and reason come from the progress row (absent = not
started) and the exam row by the fixed first-match ladder — not completed →
"Not started" 10/5; completed, no test → "Completed, test pending" 9/4; test
taken, latest score < 70 → "Struggled (score: …%)" 8/3; otherwise →
"Completed" 1 — with " | Exam: " plus the first 10 characters of the exam
date appended whenever an exam exists. -/
theorem C1_priority_reason_ladder :
    ∀ now u prog exam_date, exam_date ≠ some "" →
      ((progCompleted prog = false →
          (buildSuggestion now u prog exam_date).reason =
            "Not started" ++
              (if exam_date.isSome then " | Exam: " ++ pyTake (exam_date.getD "") 10 else "") ∧
          (buildSuggestion now u prog exam_date).priority =
            if exam_date.isSome then 10 else 5) ∧
       (progCompleted prog = true → progTestTaken prog = false →
          (buildSuggestion now u prog exam_date).reason =
            "Completed, test pending" ++
              (if exam_date.isSome then " | Exam: " ++ pyTake (exam_date.getD "") 10 else "") ∧
          (buildSuggestion now u prog exam_date).priority =
            if exam_date.isSome then 9 else 4) ∧
       (progCompleted prog = true → progTestTaken prog = true →
          ∀ sc, progScore prog = some sc → sc < 70 →
            (buildSuggestion now u prog exam_date).reason =
              ("Struggled (score: " ++ formatScore sc ++ "%)") ++
                (if exam_date.isSome then " | Exam: " ++ pyTake (exam_date.getD "") 10 else "") ∧
            (buildSuggestion now u prog exam_date).priority =
              if exam_date.isSome then 8 else 3) ∧
       (progCompleted prog = true → progTestTaken prog = true →
          (∀ sc, progScore prog = some sc → ¬ sc < 70) →
          (buildSuggestion now u prog exam_date).reason =
            "Completed" ++
              (if exam_date.isSome then " | Exam: " ++ pyTake (exam_date.getD "") 10 else "") ∧
          (buildSuggestion now u prog exam_date).priority = 1)) := by
  intro now u prog ed hne
  have htr := examDateTruthy_eq_isSome hne
  refine ⟨?_, ?_, ?_, ?_⟩
  · intro hc
    constructor
    · rw [buildSuggestion]
      simp only [hc, Bool.not_false, if_true]
      exact reason_suffix_eq "Not started" ed hne
    · rw [buildSuggestion]
      simp only [hc, Bool.not_false, if_true, htr]
  · intro hc ht
    constructor
    · rw [buildSuggestion]
      simp only [hc, ht, Bool.not_true, Bool.not_false, Bool.false_eq_true,
        if_false, if_true]
      exact reason_suffix_eq "Completed, test pending" ed hne
    · rw [buildSuggestion]
      simp only [hc, ht, Bool.not_true, Bool.not_false, Bool.false_eq_true,
        if_false, if_true, htr]
  · intro hc ht sc hs hlt
    constructor
    · rw [buildSuggestion]
      simp only [hc, ht, hs, Bool.not_true, Bool.false_eq_true, if_false,
        if_pos hlt]
      exact reason_suffix_eq ("Struggled (score: " ++ formatScore sc ++ "%)") ed hne
    · rw [buildSuggestion]
      simp only [hc, ht, hs, Bool.not_true, Bool.false_eq_true, if_false,
        if_pos hlt, htr]
  · intro hc ht hge
    cases hsc : progScore prog with
    | none =>
      constructor
      · rw [buildSuggestion]
        simp only [hc, ht, hsc, Bool.not_true, Bool.false_eq_true, if_false]
        exact reason_suffix_eq "Completed" ed hne
      · rw [buildSuggestion]
        simp only [hc, ht, hsc, Bool.not_true, Bool.false_eq_true, if_false]
    | some sc =>
      have hnl := hge sc hsc
      constructor
      · rw [buildSuggestion]
        simp only [hc, ht, hsc, Bool.not_true, Bool.false_eq_true, if_false,
          if_neg hnl]
        exact reason_suffix_eq "Completed" ed hne
      · rw [buildSuggestion]
        simp only [hc, ht, hsc, Bool.not_true, Bool.false_eq_true, if_false,
          if_neg hnl]

/-- C1 witness: ladder instantiated at a progress row with score 60 and an
exam on 2025-10-14. -/
theorem C1_priority_reason_ladder_witness :
    (some "2025-10-14T10:00" : Option String) ≠ some "" ∧
    ((progCompleted (some ⟨9, 1, true, true, some 60, some "medium"⟩) = false →
        (buildSuggestion wNow ⟨1, 7, "Math", "Algebra", "Linear equations"⟩
          (some ⟨9, 1, true, true, some 60, some "medium"⟩) (some "2025-10-14T10:00")).reason =
          "Not started" ++
            (if (some "2025-10-14T10:00" : Option String).isSome then
              " | Exam: " ++ pyTake ((some "2025-10-14T10:00" : Option String).getD "") 10
            else "") ∧
        (buildSuggestion wNow ⟨1, 7, "Math", "Algebra", "Linear equations"⟩
          (some ⟨9, 1, true, true, some 60, some "medium"⟩) (some "2025-10-14T10:00")).priority =
          if (some "2025-10-14T10:00" : Option String).isSome then 10 else 5) ∧
     (progCompleted (some ⟨9, 1, true, true, some 60, some "medium"⟩) = true →
        progTestTaken (some ⟨9, 1, true, true, some 60, some "medium"⟩) = false →
        (buildSuggestion wNow ⟨1, 7, "Math", "Algebra", "Linear equations"⟩
          (some ⟨9, 1, true, true, some 60, some "medium"⟩) (some "2025-10-14T10:00")).reason =
          "Completed, test pending" ++
            (if (some "2025-10-14T10:00" : Option String).isSome then
              " | Exam: " ++ pyTake ((some "2025-10-14T10:00" : Option String).getD "") 10
            else "") ∧
        (buildSuggestion wNow ⟨1, 7, "Math", "Algebra", "Linear equations"⟩
          (some ⟨9, 1, true, true, some 60, some "medium"⟩) (some "2025-10-14T10:00")).priority =
          if (some "2025-10-14T10:00" : Option String).isSome then 9 else 4) ∧
     (progCompleted (some ⟨9, 1, true, true, some 60, some "medium"⟩) = true →
        progTestTaken (some ⟨9, 1, true, true, some 60, some "medium"⟩) = true →
        ∀ sc, progScore (some ⟨9, 1, true, true, some 60, some "medium"⟩) = some sc → sc < 70 →
          (buildSuggestion wNow ⟨1, 7, "Math", "Algebra", "Linear equations"⟩
            (some ⟨9, 1, true, true, some 60, some "medium"⟩) (some "2025-10-14T10:00")).reason =
            ("Struggled (score: " ++ formatScore sc ++ "%)") ++
              (if (some "2025-10-14T10:00" : Option String).isSome then
                " | Exam: " ++ pyTake ((some "2025-10-14T10:00" : Option String).getD "") 10
              else "") ∧
          (buildSuggestion wNow ⟨1, 7, "Math", "Algebra", "Linear equations"⟩
            (some ⟨9, 1, true, true, some 60, some "medium"⟩) (some "2025-10-14T10:00")).priority =
            if (some "2025-10-14T10:00" : Option String).isSome then 8 else 3) ∧
     (progCompleted (some ⟨9, 1, true, true, some 60, some "medium"⟩) = true →
        progTestTaken (some ⟨9, 1, true, true, some 60, some "medium"⟩) = true →
        (∀ sc, progScore (some ⟨9, 1, true, true, some 60, some "medium"⟩) = some sc →
          ¬ sc < 70) →
        (buildSuggestion wNow ⟨1, 7, "Math", "Algebra", "Linear equations"⟩
          (some ⟨9, 1, true, true, some 60, some "medium"⟩) (some "2025-10-14T10:00")).reason =
          "Completed" ++
            (if (some "2025-10-14T10:00" : Option String).isSome then
              " | Exam: " ++ pyTake ((some "2025-10-14T10:00" : Option String).getD "") 10
            else "") ∧
        (buildSuggestion wNow ⟨1, 7, "Math", "Algebra", "Linear equations"⟩
          (some ⟨9, 1, true, true, some 60, some "medium"⟩) (some "2025-10-14T10:00")).priority = 1)) :=
  ⟨by simp,
    C1_priority_reason_ladder wNow ⟨1, 7, "Math", "Algebra", "Linear equations"⟩
      (some ⟨9, 1, true, true, some 60, some "medium"⟩) (some "2025-10-14T10:00") (by simp)⟩

/-- `strftime('%Y-%m-%dT09:00')` in `YYYY-MM-DDTHH:MM` shape. -/
theorem strftimeAt0900_shape (t : Nat) :
    strftimeAt0900 t = dateString t ++ "T" ++ pad2 9 ++ ":" ++ pad2 0 := by
  simp only [strftimeAt0900, String.append_assoc]
  congr 1

/-- `strftime('%Y-%m-%dT%H:00')` in `YYYY-MM-DDTHH:MM` shape. -/
theorem strftimeHourFloor_shape (t : Nat) :
    strftimeHourFloor t = dateString t ++ "T" ++ pad2 (t % 86400 / 3600) ++ ":" ++ pad2 0 := by
  have h0 : (":" ++ pad2 0 : String) = ":00" := rfl
  simp only [strftimeHourFloor, String.append_assoc, h0]

/-- The suggested time is always one of the three slots of src/app.py:269–283. -/
theorem computeSuggestedTime_cases (now : Nat) (ed : Option String) :
    computeSuggestedTime now ed = strftimeAt0900 (now + 86400) ∨
    computeSuggestedTime now ed = strftimeAt0900 (now + 2 * 86400) ∨
    computeSuggestedTime now ed = strftimeHourFloor (now + 2 * 3600) := by
  rw [computeSuggestedTime]
  cases h : examDateTruthy ed with
  | false => simp
  | true =>
    simp only [if_true]
    cases hp : fromisoformat (pyReplaceTSpace (ed.getD "")) with
    | none => left; rfl
    | some t =>
      by_cases h3 : Int.fdiv ((t : ℤ) - (now : ℤ)) 86400 ≤ 3
      · right; right; simp [h3]
      · by_cases h7 : Int.fdiv ((t : ℤ) - (now : ℤ)) 86400 ≤ 7
        · left; simp [h3, h7]
        · right; left; simp [h3, h7]

/-- C3: the suggested study time ignores priority and depends only on the
exam date — missing/unparseable date (or empty string) → tomorrow at 09:00;
parsed date with a floored day difference ≤ 3 → two hours from now at the
current hour; ≤ 7 → tomorrow at 09:00; > 7 → in two days at 09:00 — always
producing a `YYYY-MM-DDTHH:MM` string, never an error. -/
theorem C3_suggested_time :
    ∀ now exam_date,
      (examDateTruthy exam_date = false →
        computeSuggestedTime now exam_date = strftimeAt0900 (now + 86400)) ∧
      (∀ s, exam_date = some s → s ≠ "" →
        (fromisoformat (pyReplaceTSpace s) = none →
          computeSuggestedTime now exam_date = strftimeAt0900 (now + 86400)) ∧
        (∀ ed, fromisoformat (pyReplaceTSpace s) = some ed →
          (Int.fdiv ((ed : ℤ) - (now : ℤ)) 86400 ≤ 3 →
            computeSuggestedTime now exam_date = strftimeHourFloor (now + 2 * 3600)) ∧
          (3 < Int.fdiv ((ed : ℤ) - (now : ℤ)) 86400 →
            Int.fdiv ((ed : ℤ) - (now : ℤ)) 86400 ≤ 7 →
            computeSuggestedTime now exam_date = strftimeAt0900 (now + 86400)) ∧
          (7 < Int.fdiv ((ed : ℤ) - (now : ℤ)) 86400 →
            computeSuggestedTime now exam_date = strftimeAt0900 (now + 2 * 86400)))) ∧
      (∃ t hh, computeSuggestedTime now exam_date =
          dateString t ++ "T" ++ pad2 hh ++ ":" ++ pad2 0 ∧ hh ≤ 23) := by
  intro now ed
  refine ⟨?_, ?_, ?_⟩
  · intro hf
    simp [computeSuggestedTime, hf]
  · intro s hse hsne
    subst hse
    have hie : s.isEmpty = false := by
      cases h0 : s.isEmpty
      · rfl
      · exact absurd ((String.isEmpty_iff s).mp h0) hsne
    have htr : examDateTruthy (some s) = true := by
      simp [examDateTruthy, hie]
    constructor
    · intro hp
      simp [computeSuggestedTime, htr, hp]
    · intro t hp
      refine ⟨?_, ?_, ?_⟩
      · intro h3
        simp [computeSuggestedTime, htr, hp, h3]
      · intro h3 h7
        simp [computeSuggestedTime, htr, hp, h7]
        omega
      · intro h7
        have h3 : ¬ Int.fdiv ((t : ℤ) - (now : ℤ)) 86400 ≤ 3 := by omega
        simp [computeSuggestedTime, htr, hp, h3]
        omega
  · rcases computeSuggestedTime_cases now ed with h | h | h
    · exact ⟨now + 86400, 9, by rw [h, strftimeAt0900_shape], by norm_num⟩
    · exact ⟨now + 2 * 86400, 9, by rw [h, strftimeAt0900_shape], by norm_num⟩
    · refine ⟨now + 2 * 3600, (now + 2 * 3600) % 86400 / 3600,
        by rw [h, strftimeHourFloor_shape], ?_⟩
      have hlt : (now + 2 * 3600) % 86400 < 86400 := Nat.mod_lt _ (by norm_num)
      omega

/-- C3 witness: an exam two days out lands in the ≤ 3 branch: two hours from
now, minutes zeroed. -/
theorem C3_suggested_time_witness :
    fromisoformat (pyReplaceTSpace "2025-10-14T10:00") =
      some (toSeconds 2025 10 14 10 0 0) ∧
    Int.fdiv ((toSeconds 2025 10 14 10 0 0 : ℤ) - (wNow : ℤ)) 86400 ≤ 3 ∧
    computeSuggestedTime wNow (some "2025-10-14T10:00") =
      strftimeHourFloor (wNow + 2 * 3600) :=
  ⟨by rfl, by decide,
    (((C3_suggested_time wNow (some "2025-10-14T10:00")).2.1 "2025-10-14T10:00" rfl
      (by simp)).2 (toSeconds 2025 10 14 10 0 0) (by rfl)).1 (by decide)⟩

/-- The UPDATE of src/app.py:1325 keeps the row key. -/
theorem progressKey_update (sid uid : Nat) (score : ℚ) (dl : String)
    (r : ProgressRow) :
    progressKey sid uid
      { r with test_taken := true, test_score := some score,
               difficulty_level := some dl } = progressKey sid uid r := rfl

/-- C6: grading upserts the `(student, unit)` progress row — `test_taken`,
`test_score` and `difficulty_level` are set to the just-computed values, a
missing row is created with `completed = true`, and (given the schema's
uniqueness) exactly one row for the pair exists afterwards, holding the
latest score; every successful `submit_test` performs exactly this upsert for
the test's unit. -/
theorem C6_progress_upsert :
    (∀ (rows : List ProgressRow) sid uid (score : ℚ) dl,
      rows.countP (progressKey sid uid) ≤ 1 →
      (upsertProgress rows sid uid score dl).countP (progressKey sid uid) = 1 ∧
      ∀ r ∈ upsertProgress rows sid uid score dl,
        r.student_id = sid → r.unit_id = uid →
          r.test_taken = true ∧ r.test_score = some score ∧
          r.difficulty_level = some dl ∧
          (rows.countP (progressKey sid uid) = 0 → r.completed = true)) ∧
    (∀ db sid mid tid form s d p,
      submit_test db sid mid tid form = Except.ok (s, d, p) →
      ∃ uid, findOwnedTestUnit db tid mid = some uid ∧
        p = upsertProgress db.progress sid uid s d) := by
  constructor
  · intro rows sid uid score dl hle
    cases hany : rows.any (progressKey sid uid) with
    | true =>
      have hpos : 0 < rows.countP (progressKey sid uid) := by
        rw [List.countP_pos_iff]
        exact List.any_eq_true.mp hany
      have hup : upsertProgress rows sid uid score dl =
          rows.map (fun r =>
            if progressKey sid uid r then
              { r with test_taken := true, test_score := some score,
                       difficulty_level := some dl }
            else r) := by
        rw [upsertProgress, if_pos hany]
      have hcnt : (upsertProgress rows sid uid score dl).countP
          (progressKey sid uid) = rows.countP (progressKey sid uid) := by
        rw [hup, List.countP_map]
        refine List.countP_congr ?_
        intro r _
        simp only [Function.comp_apply]
        cases hk : progressKey sid uid r with
        | true => simp [progressKey_update, hk]
        | false => simp [hk]
      constructor
      · rw [hcnt]; omega
      · intro r hr hsid huid
        rw [hup, List.mem_map] at hr
        obtain ⟨r0, hr0, heq⟩ := hr
        cases hk : progressKey sid uid r0 with
        | true =>
          rw [hk] at heq
          simp only [if_true] at heq
          refine ⟨by rw [← heq], by rw [← heq], by rw [← heq], ?_⟩
          intro h0; omega
        | false =>
          rw [hk] at heq
          simp only [Bool.false_eq_true, if_false] at heq
          exfalso
          have : progressKey sid uid r0 = true := by
            rw [heq, progressKey, hsid, huid]
            simp
          rw [hk] at this
          exact Bool.false_ne_true this
    | false =>
      have hnone : ∀ r ∈ rows, ¬ progressKey sid uid r = true :=
        List.any_eq_false.mp hany
      have hzero : rows.countP (progressKey sid uid) = 0 :=
        List.countP_eq_zero.mpr hnone
      have hup : upsertProgress rows sid uid score dl =
          rows ++ [{ student_id := sid, unit_id := uid, completed := true,
                     test_taken := true, test_score := some score,
                     difficulty_level := some dl }] := by
        rw [upsertProgress, if_neg (by rw [hany]; exact Bool.false_ne_true)]
      constructor
      · rw [hup, List.countP_append, hzero]
        have hnew : progressKey sid uid
            { student_id := sid, unit_id := uid, completed := true,
              test_taken := true, test_score := some score,
              difficulty_level := some dl } = true := by
          simp [progressKey]
        simp [List.countP_cons, hnew]
      · intro r hr hsid huid
        rw [hup, List.mem_append] at hr
        rcases hr with hr | hr
        · exact absurd (by rw [progressKey, hsid, huid]; simp) (hnone r hr)
        · rw [List.mem_singleton] at hr
          subst hr
          exact ⟨rfl, rfl, rfl, fun _ => rfl⟩
  · intro db sid mid tid form s d p h
    rw [submit_test] at h
    cases hf : findOwnedTestUnit db tid mid with
    | none => rw [hf] at h; cases h
    | some uid =>
      rw [hf] at h
      simp only [Except.ok.injEq, Prod.mk.injEq] at h
      obtain ⟨hs, hd, hp⟩ := h
      exact ⟨uid, rfl, by rw [← hp, ← hs, ← hd]⟩

/-- C6 witness: upserting into an empty table creates exactly one row with
the computed fields. -/
theorem C6_progress_upsert_witness :
    ([] : List ProgressRow).countP (progressKey 9 1) ≤ 1 ∧
    ((upsertProgress [] 9 1 60 "medium").countP (progressKey 9 1) = 1 ∧
      ∀ r ∈ upsertProgress [] 9 1 60 "medium",
        r.student_id = 9 → r.unit_id = 1 →
          r.test_taken = true ∧ r.test_score = some 60 ∧
          r.difficulty_level = some "medium" ∧
          (([] : List ProgressRow).countP (progressKey 9 1) = 0 →
            r.completed = true)) :=
  ⟨by decide, C6_progress_upsert.1 [] 9 1 60 "medium" (by decide)⟩

/-- C8: `submit_test` fails (flashing "Test not found") exactly when no test
with the requested id has a unit owned by the student's mentor — the check
traverses Test → StudyUnit → mentor_id — and on failure the progress table
is untouched. -/
theorem C8_notfound_characterization :
    ∀ db sid mid tid form,
      ((∃ e, submit_test db sid mid tid form = Except.error e) ↔
        ¬ ∃ t ∈ db.tests, t.id = tid ∧
            ∃ u ∈ db.units, u.id = t.unit_id ∧ u.mentor_id = mid) ∧
      (∀ e, submit_test db sid mid tid form = Except.error e →
        e = "Test not found" ∧
        progressAfterSubmit db sid mid tid form = db.progress) := by
  intro db sid mid tid form
  cases hf : findOwnedTestUnit db tid mid with
  | none =>
    have hsub : submit_test db sid mid tid form = Except.error "Test not found" := by
      rw [submit_test, hf]
    have hfind : db.tests.find? (fun t =>
        t.id == tid &&
          db.units.any (fun u => u.id == t.unit_id && u.mentor_id == mid)) = none := by
      rw [findOwnedTestUnit] at hf
      exact Option.map_eq_none'.mp hf
    rw [List.find?_eq_none] at hfind
    constructor
    · constructor
      · rintro - ⟨t, ht, htid, u, hu, huid, hmid⟩
        refine hfind t ht ?_
        simp only [Bool.and_eq_true, beq_iff_eq, List.any_eq_true]
        exact ⟨htid, u, hu, huid, hmid⟩
      · intro _
        exact ⟨"Test not found", hsub⟩
    · intro e he
      rw [hsub] at he
      injection he with he'
      constructor
      · exact he'.symm
      · rw [progressAfterSubmit, hsub]
  | some uid =>
    rw [findOwnedTestUnit] at hf
    obtain ⟨t0, hfind, -⟩ := Option.map_eq_some'.mp hf
    have hmemt := List.mem_of_find?_eq_some hfind
    have hpred := List.find?_some hfind
    simp only [Bool.and_eq_true, beq_iff_eq, List.any_eq_true] at hpred
    obtain ⟨htid, u, hu, huid, humid⟩ := hpred
    have hsub : submit_test db sid mid tid form =
        Except.ok (scoreOf ((questionsOf db tid).countP (gradeQuestion db.options form))
            (questionsOf db tid).length,
          difficultyLevel (scoreOf ((questionsOf db tid).countP
              (gradeQuestion db.options form)) (questionsOf db tid).length),
          upsertProgress db.progress sid t0.unit_id
            (scoreOf ((questionsOf db tid).countP (gradeQuestion db.options form))
              (questionsOf db tid).length)
            (difficultyLevel (scoreOf ((questionsOf db tid).countP
                (gradeQuestion db.options form)) (questionsOf db tid).length))) := by
      rw [submit_test, findOwnedTestUnit, hfind]
      rfl
    constructor
    · constructor
      · rintro ⟨e, he⟩
        rw [hsub] at he
        exact Except.noConfusion he
      · intro hno
        exact absurd ⟨t0, hmemt, htid, u, hu, huid, humid⟩ hno
    · intro e he
      rw [hsub] at he
      exact Except.noConfusion he

/-- C8 witness: requesting a nonexistent test id on the sample database. -/
theorem C8_notfound_characterization_witness :
    ((∃ e, submit_test wDB 9 7 99 [] = Except.error e) ↔
      ¬ ∃ t ∈ wDB.tests, t.id = 99 ∧
          ∃ u ∈ wDB.units, u.id = t.unit_id ∧ u.mentor_id = 7) ∧
    (∀ e, submit_test wDB 9 7 99 [] = Except.error e →
      e = "Test not found" ∧
      progressAfterSubmit wDB 9 7 99 [] = wDB.progress) :=
  C8_notfound_characterization wDB 9 7 99 []

/-- The sort comparison of src/app.py:314 is transitive. -/
theorem suggLE_trans : ∀ a b c : Suggestion,
    suggLE a b = true → suggLE b c = true → suggLE a c = true := by
  intro a b c hab hbc
  simp only [suggLE, Bool.or_eq_true, Bool.and_eq_true, decide_eq_true_eq,
    beq_iff_eq] at *
  rcases hab with h1 | ⟨h1, h1'⟩ <;> rcases hbc with h2 | ⟨h2, h2'⟩
  · left; omega
  · left; omega
  · left; omega
  · right; exact ⟨h1.trans h2, le_trans h1' h2'⟩

/-- The sort comparison of src/app.py:314 is total. -/
theorem suggLE_total : ∀ a b : Suggestion, (suggLE a b || suggLE b a) = true := by
  intro a b
  simp only [suggLE, Bool.or_eq_true, Bool.and_eq_true, decide_eq_true_eq,
    beq_iff_eq]
  rcases Nat.lt_trichotomy a.priority b.priority with h | h | h
  · right; left; exact h
  · rcases le_total a.suggested_study_time b.suggested_study_time with h' | h'
    · left; right; exact ⟨h, h'⟩
    · right; right; exact ⟨h.symm, h'⟩
  · left; left; exact h

/-- C7: one suggestion per unit of the mentor (given the primary-key
uniqueness of unit ids), sorted by descending priority with ties broken by
ascending suggested time; absent progress or exam rows never cause an error —
the generator is total and only applies the defaults. -/
theorem C7_schedule_output :
    ∀ db sid mid now,
      ((db.units.filter (fun u => u.mentor_id == mid)).map (fun u => u.id)).Nodup →
      (∀ u ∈ db.units, u.mentor_id = mid →
        (generate_adaptive_schedule db sid mid now).countP
          (fun s => s.unit_id == u.id) = 1) ∧
      (generate_adaptive_schedule db sid mid now).length =
        (db.units.filter (fun u => u.mentor_id == mid)).length ∧
      List.Pairwise (fun a b =>
        b.priority < a.priority ∨
          (a.priority = b.priority ∧
            a.suggested_study_time ≤ b.suggested_study_time))
        (generate_adaptive_schedule db sid mid now) := by
  intro db sid mid now hnd
  have hgen : generate_adaptive_schedule db sid mid now =
      ((db.units.filter (fun u => u.mentor_id == mid)).map (fun u =>
        buildSuggestion now u
          (db.progress.find? (fun p => p.student_id == sid && p.unit_id == u.id))
          ((db.exams.find? (fun e => e.mentor_id == mid && e.unit_id == u.id)).map
            (fun e => e.exam_date)))).mergeSort suggLE := rfl
  have hperm := List.mergeSort_perm ((db.units.filter (fun u => u.mentor_id == mid)).map
      (fun u =>
        buildSuggestion now u
          (db.progress.find? (fun p => p.student_id == sid && p.unit_id == u.id))
          ((db.exams.find? (fun e => e.mentor_id == mid && e.unit_id == u.id)).map
            (fun e => e.exam_date)))) suggLE
  refine ⟨?_, ?_, ?_⟩
  · intro u hu hm
    have humem : u ∈ db.units.filter (fun v => v.mentor_id == mid) :=
      List.mem_filter.mpr ⟨hu, by simp [hm]⟩
    rw [hgen, hperm.countP_eq, List.countP_map]
    have hcongr : (db.units.filter (fun v => v.mentor_id == mid)).countP
        ((fun s => s.unit_id == u.id) ∘ (fun v =>
          buildSuggestion now v
            (db.progress.find? (fun p => p.student_id == sid && p.unit_id == v.id))
            ((db.exams.find? (fun e => e.mentor_id == mid && e.unit_id == v.id)).map
              (fun e => e.exam_date)))) =
        (db.units.filter (fun v => v.mentor_id == mid)).countP
          (fun v => v.id == u.id) := by
      refine List.countP_congr ?_
      intro v _
      simp only [Function.comp_apply, buildSuggestion_unit_id]
    rw [hcongr]
    have hcount : ((db.units.filter (fun v => v.mentor_id == mid)).map
        (fun v => v.id)).count u.id =
        (db.units.filter (fun v => v.mentor_id == mid)).countP
          (fun v => v.id == u.id) := by
      show List.countP (fun y => y == u.id) _ = _
      rw [List.countP_map]
      rfl
    have hmemid : u.id ∈ (db.units.filter (fun v => v.mentor_id == mid)).map
        (fun v => v.id) := List.mem_map.mpr ⟨u, humem, rfl⟩
    have hle := List.nodup_iff_count_le_one.mp hnd u.id
    have hpos := List.count_pos_iff.mpr hmemid
    omega
  · rw [hgen, hperm.length_eq, List.length_map]
  · rw [hgen]
    have hp := List.sorted_mergeSort suggLE_trans suggLE_total
      ((db.units.filter (fun u => u.mentor_id == mid)).map (fun u =>
        buildSuggestion now u
          (db.progress.find? (fun p => p.student_id == sid && p.unit_id == u.id))
          ((db.exams.find? (fun e => e.mentor_id == mid && e.unit_id == u.id)).map
            (fun e => e.exam_date))))
    refine hp.imp ?_
    intro a b h
    simpa only [suggLE, Bool.or_eq_true, Bool.and_eq_true, decide_eq_true_eq,
      beq_iff_eq] using h

/-- C7 witness: the sample database with two units for mentor 7. -/
theorem C7_schedule_output_witness :
    ((wDB.units.filter (fun u => u.mentor_id == 7)).map (fun u => u.id)).Nodup ∧
    ((∀ u ∈ wDB.units, u.mentor_id = 7 →
        (generate_adaptive_schedule wDB 9 7 wNow).countP
          (fun s => s.unit_id == u.id) = 1) ∧
      (generate_adaptive_schedule wDB 9 7 wNow).length =
        (wDB.units.filter (fun u => u.mentor_id == 7)).length ∧
      List.Pairwise (fun a b =>
        b.priority < a.priority ∨
          (a.priority = b.priority ∧
            a.suggested_study_time ≤ b.suggested_study_time))
        (generate_adaptive_schedule wDB 9 7 wNow)) :=
  ⟨by decide, C7_schedule_output wDB 9 7 wNow (by decide)⟩
